import Mathlib

/-!
Verification of the budget-analysis tool's transaction normalization and
derived-analytics engine, as implemented in `scripts/analysis.py` and
`scripts/generate_dashboard.py`.

The Python/pandas and embedded-JavaScript code is shallowly embedded:
dataframes become lists of records, currency values become exact rationals,
calendar timestamps become explicit `(year, month, day)` dates with a
proleptic-Gregorian ordinal for day arithmetic, and fallible operations
(`pd.to_datetime` with the default `errors` that raises, loaders that raise
on empty input) return `Except`.  Fields whose textual parse may fail
(`pd.to_datetime`, `pd.to_numeric`) take the parse outcome as an `Option`:
`none` models an unparseable cell (pandas `NaT`/`NaN` before coercion).
-/

/-! ### Calendar dates

Transactions carry calendar dates.  `Date.toOrdinal` is the proleptic
Gregorian day number (like Python `date.toordinal`), so differences of
ordinals agree with pandas `Timestamp` subtraction in days. -/

structure Date where
  y : Int
  m : Int
  d : Int
deriving DecidableEq, Repr

def isLeap (y : Int) : Bool :=
  (y % 4 == 0 && y % 100 != 0) || (y % 400 == 0)

def daysBeforeMonth (leap : Bool) (m : Int) : Int :=
  let base :=
    if m ≤ 1 then 0 else if m ≤ 2 then 31 else if m ≤ 3 then 59
    else if m ≤ 4 then 90 else if m ≤ 5 then 120 else if m ≤ 6 then 151
    else if m ≤ 7 then 181 else if m ≤ 8 then 212 else if m ≤ 9 then 243
    else if m ≤ 10 then 273 else if m ≤ 11 then 304 else 334
  if leap && 2 < m then base + 1 else base

def Date.toOrdinal (dt : Date) : Int :=
  365 * (dt.y - 1) + (dt.y - 1).fdiv 4 - (dt.y - 1).fdiv 100 + (dt.y - 1).fdiv 400
    + daysBeforeMonth (isLeap dt.y) dt.m + dt.d

/-- Year-month key, as produced by `Date.dt.to_period('M')` /
`Year + '-' + Month`. -/
def Date.ym (dt : Date) : Int × Int := (dt.y, dt.m)

/-! ### Rounding

pandas `.round(n)` rounds half to even (numpy); the dashboard's JavaScript
uses `Math.round(x * 100) / 100`, and `Math.round` rounds half toward
positive infinity.  Both are embedded exactly on `ℚ`. -/

/-- Round half to even (numpy / pandas `.round`). -/
def rhe (x : ℚ) : Int :=
  let f := ⌊x⌋
  let r := x - f
  if r < 1/2 then f
  else if 1/2 < r then f + 1
  else if f % 2 = 0 then f else f + 1

/-- pandas `.round(2)`. -/
def round2 (x : ℚ) : ℚ := (rhe (x * 100) : ℚ) / 100

/-- pandas `.round(1)`. -/
def round1 (x : ℚ) : ℚ := (rhe (x * 10) : ℚ) / 10

/-- JavaScript `Math.round` (half toward +∞). -/
def jsRound (x : ℚ) : Int := ⌊x + 1/2⌋

/-- JavaScript `Math.round(x * 100) / 100`. -/
def jsRound2 (x : ℚ) : ℚ := (jsRound (x * 100) : ℚ) / 100

/-! ### Canonical transactions and raw source rows -/

/-- Canonical transaction record after normalization.  `amount = none`
models a pandas `NaN` produced by `pd.to_numeric(..., errors='coerce')`:
the record is present but the amount is excluded from sums and from
`Amount > 0` / `Amount < 0` partitions. -/
structure Txn where
  date : Date
  amount : Option ℚ
  description : String
  category : String
  source : String
deriving DecidableEq, Repr

/-- Raw Schema-A row (`Date` in `MM/DD/YYYY`, signed `Amount`).  The
`date`/`amount` fields carry the parse outcome of the textual cell:
`none` = the cell does not parse. -/
structure RawA where
  date : Option Date
  amount : Option ℚ
  description : String
  category : String
deriving DecidableEq, Repr

/-- Raw Schema-B row (`Transaction Date` in `YYYY-MM-DD`, `Debit`,
`Credit`), fields again as parse outcomes. -/
structure RawB where
  date : Option Date
  debit : Option ℚ
  credit : Option ℚ
  description : String
  category : String
deriving DecidableEq, Repr

/-- Errors surfaced by the loaders. -/
inductive LoadErr where
  /-- `pd.to_datetime` with default `errors` raises on an unparseable date. -/
  | dateParse
  /-- `ValueError("No valid CSV files found in data directory")` /
  `FileNotFoundError("No CSV files found in data directory")`. -/
  | noValidCsv
deriving DecidableEq, Repr

/-- `pd.to_datetime(column, format=...)`: succeeds with the parsed dates
when every cell parses, raises on the first unparseable cell. -/
def to_datetime (l : List (Option Date)) : Except LoadErr (List Date) :=
  match l with
  | [] => .ok []
  | none :: _ => .error .dateParse
  | some d :: rest => do
    let ds ← to_datetime rest
    .ok (d :: ds)

/-- Schema-A processing in `generate_dashboard.load_transactions`
(lines 34-37): `Amount` coerced (failures → null), `Date` parsed with
raising semantics. -/
def loadA (rows : List RawA) : Except LoadErr (List Txn) := do
  let _ ← to_datetime (rows.map (·.date))
  .ok (rows.map fun r =>
    { date := r.date.getD ⟨0, 0, 0⟩
      amount := r.amount
      description := r.description
      category := r.category
      source := "" })

/-- Schema-B processing in `generate_dashboard.load_transactions`
(lines 25-33): dates parsed (raising), `Debit`/`Credit` coerced and
`fillna(0)`, `Amount := Debit`, only rows with `Debit > 0` kept. -/
def loadB (rows : List RawB) : Except LoadErr (List Txn) := do
  let _ ← to_datetime (rows.map (·.date))
  .ok ((rows.filter fun r => 0 < r.debit.getD 0).map fun r =>
    { date := r.date.getD ⟨0, 0, 0⟩
      amount := some (r.debit.getD 0)
      description := r.description
      category := r.category
      source := "" })

/-- A raw CSV source as seen by the dashboard loader's column sniffing:
`Transaction Date` present → Schema B; else `Date` and `Amount` present →
Schema A; else unrecognized. -/
inductive RawSource where
  | schemaA (rows : List RawA)
  | schemaB (rows : List RawB)
  | unknown
deriving Repr

def RawSource.isUnknown : RawSource → Bool
  | .unknown => true
  | _ => false

/-- The per-file branch of `generate_dashboard.load_transactions`:
`none` means the file was skipped with a warning (unrecognized columns,
`continue`); otherwise the processed frame, possibly empty. -/
def processSource : RawSource → Option (Except LoadErr (List Txn))
  | .schemaA rows => some (loadA rows)
  | .schemaB rows => some (loadB rows)
  | .unknown => none

/-- The `all_dfs` accumulation loop: skipped files contribute nothing,
processed files contribute their (possibly empty) frame; a raising parse
aborts the whole load. -/
def collectDfs : List RawSource → Except LoadErr (List (List Txn))
  | [] => .ok []
  | s :: rest =>
    match processSource s with
    | none => collectDfs rest
    | some r => do
      let df ← r
      let dfs ← collectDfs rest
      .ok (df :: dfs)

/-- The `(date, amount, description)` duplicate key. -/
def dupKey (t : Txn) : Date × Option ℚ × String := (t.date, t.amount, t.description)

/-- `df.drop_duplicates(subset=['Date', 'Amount', 'Description'],
keep='first')`: keep the first record of each key, in order. -/
def drop_duplicates : List Txn → List Txn
  | [] => []
  | t :: rest => t :: drop_duplicates (rest.filter fun u => ¬ dupKey u = dupKey t)
termination_by l => l.length
decreasing_by
  simp only [List.length_cons]
  exact Nat.lt_succ_of_le (List.length_filter_le _ _)

/-- `generate_dashboard.load_transactions` (lines 17-56): sniff and process
every CSV, raise when no file was recognized, concatenate, deduplicate.
(The derived `Year`/`Month`/`YearMonth` columns are recomputed from `date`
where needed downstream.) -/
def load_transactions (srcs : List RawSource) : Except LoadErr (List Txn) := do
  let dfs ← collectDfs srcs
  if dfs.isEmpty then .error .noValidCsv
  else .ok (drop_duplicates dfs.flatten)

/-- `analysis.load_transactions` (lines 31-43): every file is read under
Schema A (`Date`, `Amount`), a `Source` column is added from the file stem,
frames are concatenated; raises when the directory has no CSV files.
No deduplication is performed by this loader. -/
def analysis_load_transactions (files : List (String × List RawA)) :
    Except LoadErr (List Txn) := do
  let dfs ← files.mapM fun f => do
    let txns ← loadA f.2
    pure (txns.map fun t => { t with source := f.1 })
  if dfs.isEmpty then .error .noValidCsv
  else .ok dfs.flatten

/-! ### Aggregation engine (`analysis.py`) -/

/-- Amounts of the `Amount > 0` partition (pandas: `NaN > 0` is false, so
null amounts fall in neither partition). -/
def posAmounts (df : List Txn) : List ℚ :=
  (df.filterMap (·.amount)).filter fun a => 0 < a

/-- Amounts of the `Amount < 0` partition. -/
def negAmounts (df : List Txn) : List ℚ :=
  (df.filterMap (·.amount)).filter fun a => a < 0

def listMaxI : List Int → Int
  | [] => 0
  | x :: xs => xs.foldl max x

def listMinI : List Int → Int
  | [] => 0
  | x :: xs => xs.foldl min x

/-- pandas `Series.median` of a nonempty list. -/
def medianQ (xs : List ℚ) : ℚ :=
  let s := xs.insertionSort (· ≤ ·)
  let n := s.length
  if n % 2 = 1 then s.getD (n / 2) 0
  else (s.getD (n / 2 - 1) 0 + s.getD (n / 2) 0) / 2

/-- `analysis.get_summary_stats` (lines 46-65), as the `str`-keyed dict the
Python code indexes into.  Only the numeric entries are carried: the
`date_range` entry is a pair of timestamps, never read by
`spending_velocity`.  `days_covered` is `(Date.max() - Date.min()).days`. -/
def get_summary_stats (df : List Txn) : List (String × ℚ) :=
  let purchases := posAmounts df
  let refunds := negAmounts df
  let ords := df.map (·.date.toOrdinal)
  [("gross_spent", purchases.sum),
   ("refunds", refunds.sum),
   ("net_spent", ((df.filterMap (·.amount)).sum)),
   ("purchase_count", (purchases.length : ℚ)),
   ("refund_count", (refunds.length : ℚ)),
   ("transaction_count", (df.length : ℚ)),
   ("avg_transaction", if 0 < purchases.length then purchases.sum / purchases.length else 0),
   ("median_transaction", if 0 < purchases.length then medianQ purchases else 0),
   ("days_covered", ((listMaxI ords - listMinI ords : Int) : ℚ))]

/-- Python dict lookup `stats[k]`: raises `KeyError(k)` when absent. -/
def dictGet (d : List (String × ℚ)) (k : String) : Except String ℚ :=
  match d.find? fun p => p.1 == k with
  | some p => .ok p.2
  | none => .error k

/-- `analysis.spending_velocity` (lines 152-162), embedding each
`stats[...]` subscript as a raising lookup:
`days = max(stats['days_covered'], 1)`, then the four projections all read
`stats['total_spent']`. -/
def spending_velocity (df : List Txn) : Except String (List (String × ℚ)) := do
  let stats := get_summary_stats df
  let days := max (← dictGet stats "days_covered") 1
  .ok [("daily_average", (← dictGet stats "total_spent") / days),
       ("weekly_average", (← dictGet stats "total_spent") / days * 7),
       ("monthly_projection", (← dictGet stats "total_spent") / days * (3044/100 : ℚ)),
       ("annual_projection", (← dictGet stats "total_spent") / days * 365)]

/-- Lexicographic comparison on code points, structurally recursive (the
comparison pandas uses to sort string group keys). -/
def strLtList : List Char → List Char → Bool
  | [], [] => false
  | [], _ :: _ => true
  | _ :: _, [] => false
  | c :: cs, d :: ds =>
    if c.toNat < d.toNat then true
    else if d.toNat < c.toNat then false
    else strLtList cs ds

/-- String version of `strLtList`. -/
def strLtB (a b : String) : Bool := strLtList a.data b.data

/-- Row of the `category_breakdown` result frame. -/
structure CatRow where
  category : String
  total : ℚ
  count : Nat
  average : ℚ
  percent : ℚ
deriving DecidableEq, Repr

/-- `df['Amount'] > 0` at row level: false for null amounts. -/
def txnPos (t : Txn) : Bool :=
  match t.amount with
  | some a => decide (0 < a)
  | none => false

/-- The `groupby('Category').agg(...)` stage of `category_breakdown`
(lines 75-81): filter applied by the caller, one row per category (pandas
groupby sorts keys ascending), with sum/count/mean of the category's
non-null amounts rounded to two decimals; `percent` still unset. -/
def catRowsOf (dff : List Txn) : List CatRow :=
  let cats := ((dff.map (·.category)).dedup).insertionSort fun a b => strLtB b a = false
  cats.map fun c =>
    let amts := (dff.filter fun t => t.category == c).filterMap (·.amount)
    { category := c
      total := round2 amts.sum
      count := amts.length
      average := round2 (amts.sum / amts.length)
      percent := 0 }

/-- `total_positive` (line 84): the sum of the positive category totals
only. -/
def totalPositiveOf (rows : List CatRow) : ℚ :=
  ((rows.map (·.total)).filter fun t => decide (0 < t)).sum

/-- The percent column (line 85):
`(Total / total_positive * 100).round(1)`. -/
def withPercents (rows : List CatRow) : List CatRow :=
  rows.map fun r => { r with percent := round1 (r.total / totalPositiveOf rows * 100) }

/-- `analysis.category_breakdown` (lines 68-86): optionally filter to
purchases, group by category, aggregate, compute percent of the positive
totals only, sort descending by total. -/
def category_breakdown (df : List Txn) (purchasesOnly : Bool := true) : List CatRow :=
  let dff := if purchasesOnly then df.filter txnPos else df
  (withPercents (catRowsOf dff)).insertionSort fun a b => b.total ≤ a.total

/-! ### Recurring-charge detector (`analysis.find_recurring_charges`) -/

/-- The distinct `(year, month)` periods in which a merchant appears
(rows of the `groupby(['Description', 'Month'])` result for that
merchant). -/
def merchantMonths (df : List Txn) (desc : String) : List (Int × Int) :=
  (((df.filter fun t => t.description == desc).map fun t => t.date.ym)).dedup

/-- The merchant's per-month amount sums (pandas group sum skips null
amounts; an all-null group sums to 0). -/
def monthlySums (df : List Txn) (desc : String) : List ℚ :=
  let sub := df.filter fun t => t.description == desc
  (merchantMonths df desc).map fun m =>
    ((sub.filter fun t => t.date.ym = m).map fun t => t.amount.getD 0).sum

/-- Sample variance `Σ (x - mean)² / (n - 1)` (the square of pandas
`std`). -/
def sampleVar (xs : List ℚ) : ℚ :=
  let m := xs.sum / xs.length
  (xs.map fun x => (x - m) ^ 2).sum / ((xs.length : ℚ) - 1)

/-- `Std_Amount.fillna(0) < c` where `Std_Amount` is the sample standard
deviation of `xs`.  For a single point pandas `std` is `NaN` and
`.fillna(0)` turns the comparison into `0 < c`; for `n ≥ 2` the standard
deviation is `√(sampleVar xs)`, and `√v < c ↔ 0 < c ∧ v < c²` since both
sides of the original comparison are then real with `√v ≥ 0`. -/
def stdLtQ (xs : List ℚ) (c : ℚ) : Bool :=
  if xs.length ≤ 1 then decide (0 < c)
  else decide (0 < c ∧ sampleVar xs < c ^ 2)

/-- The row filter of `find_recurring_charges` (lines 144-147) for one
merchant: `Months_Present >= threshold_months` and
`Std_Amount.fillna(0) < Avg_Amount * 0.2`. -/
def recurringQual (df : List Txn) (thresholdMonths : Nat) (desc : String) : Bool :=
  let xs := monthlySums df desc
  decide (thresholdMonths ≤ xs.length) && stdLtQ xs (xs.sum / xs.length * (1/5))

/-- `analysis.find_recurring_charges` (lines 128-149): the merchants kept
by `recurringQual`, sorted descending by average monthly amount. -/
def find_recurring_charges (df : List Txn) (thresholdMonths : Nat := 2) : List String :=
  (((df.map (·.description)).dedup).filter
      (recurringQual df thresholdMonths)).insertionSort fun a b =>
    (monthlySums df b).sum / (monthlySums df b).length ≤
      (monthlySums df a).sum / (monthlySums df a).length

/-! ### Subscription reconciler (`generate_dashboard` embedded JS,
`getSubscriptions`, lines 645-722)

The JS operates on the flattened `DATA.byMonth` transactions, each carrying
a date, a (rounded) positive amount, a description and a category. -/

structure DTxn where
  date : Date
  amount : ℚ
  description : String
  category : String
deriving DecidableEq, Repr

/-- `hay.includes(needle)` on character lists (JS `String.includes`). -/
def listHasInfix (needle : List Char) : List Char → Bool
  | [] => needle.isEmpty
  | c :: t => needle.isPrefixOf (c :: t) || listHasInfix needle t

/-- JS `hay.includes(needle)`. -/
def strIncludes (hay needle : String) : Bool :=
  listHasInfix needle.toList hay.toList

/-- JS `String.prototype.toUpperCase` on the ASCII descriptions and
patterns in play (character-wise upper-casing). -/
def jsToUpper (s : String) : String :=
  ⟨s.data.map Char.toUpper⟩

inductive BillCycle where
  | monthly
  | annual
  | biannual
deriving DecidableEq, Repr

/-- A `SUBSCRIPTIONS` catalog entry (name, patterns, category, amount,
cycle, tolerance, optional note). -/
structure SubDef where
  name : String
  patterns : List String
  category : String
  amount : ℚ
  cycle : BillCycle
  tolerance : ℚ
  note : Option String
deriving DecidableEq, Repr

inductive SubStatus where
  /-- JS string `'active'`. -/
  | active
  /-- JS string `'irregular'`. -/
  | irregular
  /-- JS string `'not-found'`. -/
  | notFound
  /-- JS string `'inactive'`. -/
  | inactive
deriving DecidableEq, Repr

/-- One element of the `results` array built by `getSubscriptions`. -/
structure SubResult where
  name : String
  subCategory : String
  cycle : BillCycle
  expectedAmount : ℚ
  expectedMonthly : ℚ
  count : Nat
  total : ℚ
  actualMonthly : ℚ
  status : SubStatus
  note : String
  transactions : List DTxn
deriving DecidableEq, Repr

/-- The candidate-match filter body (lines 677-687): positive amount,
case-insensitive pattern containment, amount within tolerance of the
expected amount. -/
def txnMatches (sub : SubDef) (t : DTxn) : Bool :=
  if t.amount ≤ 0 then false
  else
    let matchesPattern := sub.patterns.any fun p =>
      strIncludes (jsToUpper t.description) (jsToUpper p)
    if !matchesPattern then false
    else decide (|t.amount - sub.amount| ≤ sub.tolerance)

/-- `allTransactions.filter(txn => ...)` for one definition. -/
def matchesOf (allT : List DTxn) (sub : SubDef) : List DTxn :=
  allT.filter (txnMatches sub)

/-- The per-definition body of `getSubscriptions` (lines 657-714):
definitions with `amount === 0` are immediately `inactive`; otherwise
collect matches, derive the monthly-equivalent expectation from the cycle,
and assign `'active'` / `'not-found'` / `'irregular'`. -/
def subResult (allT : List DTxn) (sub : SubDef) : SubResult :=
  if sub.amount = 0 then
    { name := sub.name
      subCategory := sub.category
      cycle := sub.cycle
      expectedAmount := 0
      expectedMonthly := 0
      count := 0
      total := 0
      actualMonthly := 0
      status := .inactive
      note := sub.note.getD "Not active"
      transactions := [] }
  else
    let ms := matchesOf allT sub
    let total := (ms.map (·.amount)).sum
    let expectedMonthly :=
      match sub.cycle with
      | .annual => sub.amount / 12
      | .biannual => sub.amount / 6
      | .monthly => sub.amount
    let status :=
      if ms.length = 0 then SubStatus.notFound
      else if sub.cycle = .monthly ∧ ms.length < 6 then .irregular
      else .active
    { name := sub.name
      subCategory := sub.category
      cycle := sub.cycle
      expectedAmount := sub.amount
      expectedMonthly := jsRound2 expectedMonthly
      count := ms.length
      total := jsRound2 total
      actualMonthly := jsRound2 (total / 12)
      status := status
      note := sub.note.getD ""
      transactions := ms.insertionSort fun a b =>
        b.date.toOrdinal ≤ a.date.toOrdinal }

/-- `getSubscriptions`: one result per catalog entry, sorted with inactive
entries last and the rest descending by expected monthly cost. -/
def getSubscriptions (subs : List SubDef) (allT : List DTxn) : List SubResult :=
  (subs.map (subResult allT)).insertionSort fun a b =>
    if a.status = .inactive ∧ ¬ b.status = .inactive then False
    else if b.status = .inactive ∧ ¬ a.status = .inactive then True
    else b.expectedMonthly ≤ a.expectedMonthly

/-- The two source rows of the §8.7 end-to-end scenario, as flattened
dashboard transactions. -/
def netflixTxns : List DTxn :=
  [{ date := ⟨2024, 1, 5⟩, amount := 45, description := "NETFLIX.COM",
     category := "Entertainment" },
   { date := ⟨2024, 2, 5⟩, amount := 1549/100, description := "NETFLIX.COM",
     category := "Entertainment" }]

/-- The §8.7 scenario's catalog entry. -/
def netflixSub : SubDef :=
  { name := "Netflix"
    patterns := ["NETFLIX"]
    category := "Streaming"
    amount := 1549/100
    cycle := .monthly
    tolerance := 2
    note := none }

/-! ### Loader lemmas -/

theorem to_datetime_ok (l : List (Option Date)) (h : ∀ x ∈ l, x.isSome) :
    to_datetime l = .ok (l.map fun x => x.getD ⟨0, 0, 0⟩) := by
  induction l with
  | nil => rfl
  | cons x rest ih =>
    match x, h x (by simp) with
    | some d, _ =>
      simp only [to_datetime, ih fun y hy => h y (by simp [hy]), List.map_cons]
      rfl

theorem to_datetime_error (l : List (Option Date)) (e : LoadErr)
    (h : to_datetime l = .error e) : e = .dateParse := by
  induction l with
  | nil => exact Except.noConfusion h
  | cons x rest ih =>
    match x with
    | none =>
      injection h with h'
      exact h'.symm
    | some d =>
      cases hr : to_datetime rest with
      | ok ds =>
        rw [show to_datetime (some d :: rest) = do
              let ds ← to_datetime rest
              Except.ok (d :: ds) from rfl, hr] at h
        exact Except.noConfusion h
      | error e' =>
        rw [show to_datetime (some d :: rest) = do
              let ds ← to_datetime rest
              Except.ok (d :: ds) from rfl, hr] at h
        injection h with h'
        exact ih (h' ▸ hr)

theorem loadA_error (rows : List RawA) (e : LoadErr)
    (h : loadA rows = .error e) : e = .dateParse := by
  unfold loadA at h
  cases hd : to_datetime (rows.map (·.date)) with
  | ok ds => rw [hd] at h; exact Except.noConfusion h
  | error e' =>
    rw [hd] at h
    injection h with h'
    exact h' ▸ to_datetime_error _ _ hd

theorem loadB_error (rows : List RawB) (e : LoadErr)
    (h : loadB rows = .error e) : e = .dateParse := by
  unfold loadB at h
  cases hd : to_datetime (rows.map (·.date)) with
  | ok ds => rw [hd] at h; exact Except.noConfusion h
  | error e' =>
    rw [hd] at h
    injection h with h'
    exact h' ▸ to_datetime_error _ _ hd

theorem collectDfs_error (srcs : List RawSource) (e : LoadErr)
    (h : collectDfs srcs = .error e) : e = .dateParse := by
  induction srcs with
  | nil => exact Except.noConfusion h
  | cons s rest ih =>
    cases s with
    | unknown => exact ih h
    | schemaA rows =>
      rw [show collectDfs (.schemaA rows :: rest) = do
            let df ← loadA rows
            let dfs ← collectDfs rest
            Except.ok (df :: dfs) from rfl] at h
      cases hr : loadA rows with
      | error e' =>
        rw [hr] at h
        injection h with h'
        exact h' ▸ loadA_error _ _ hr
      | ok df =>
        rw [hr] at h
        cases hc : collectDfs rest with
        | error e' =>
          rw [hc] at h
          injection h with h'
          exact ih (h' ▸ hc)
        | ok dfs =>
          rw [hc] at h
          exact Except.noConfusion h
    | schemaB rows =>
      rw [show collectDfs (.schemaB rows :: rest) = do
            let df ← loadB rows
            let dfs ← collectDfs rest
            Except.ok (df :: dfs) from rfl] at h
      cases hr : loadB rows with
      | error e' =>
        rw [hr] at h
        injection h with h'
        exact h' ▸ loadB_error _ _ hr
      | ok df =>
        rw [hr] at h
        cases hc : collectDfs rest with
        | error e' =>
          rw [hc] at h
          injection h with h'
          exact ih (h' ▸ hc)
        | ok dfs =>
          rw [hc] at h
          exact Except.noConfusion h

/-! ### C1 — spending velocity -/

/-- C1: the claim says `spending_velocity` returns daily/weekly/monthly/
annual figures derived from total spent over days covered.  The code
instead always raises: it subscripts the summary dict with
`'total_spent'`, a key `get_summary_stats` does not produce (it returns
`'gross_spent'` and `'net_spent'`), so for every (nonempty, parseable)
transaction set the call dies with `KeyError('total_spent')`. -/
theorem spending_velocity_keyerror (df : List Txn) (_h : df ≠ []) :
    spending_velocity df = .error "total_spent" := rfl

/-- Witness: the KeyError fires on a concrete one-transaction set. -/
theorem spending_velocity_keyerror_witness :
    spending_velocity [{ date := ⟨2024, 1, 15⟩, amount := some 25,
                         description := "COFFEE SHOP", category := "Dining",
                         source := "jan" }] =
      .error "total_spent" :=
  spending_velocity_keyerror _ (by simp)

/-! ### C3 — field-level parse failures -/

/-- C3 counterexample: the claim says a field-level parse failure never
aborts the run.  A Schema-A row whose date cell fails to parse makes
`pd.to_datetime` (default `errors`) raise, aborting the whole load, even
though the row's other fields are fine. -/
theorem loadA_date_failure_aborts :
    loadA [{ date := none, amount := some 5, description := "STORE",
             category := "Misc" }] = .error .dateParse := rfl

/-- C3 amended: an unparseable amount is nulled and the record retained
(one canonical record per source row, amounts carried over verbatim, null
amounts excluded from the positive partition that sums are taken over);
but an unparseable date raises and aborts the run, and no
record-dropping-when-all-fields-failed logic exists. -/
theorem loadA_amount_nulled (rows : List RawA) (h : ∀ r ∈ rows, r.date.isSome) :
    loadA rows = .ok (rows.map fun r =>
      { date := r.date.getD ⟨0, 0, 0⟩
        amount := r.amount
        description := r.description
        category := r.category
        source := "" }) ∧
    ∀ txns, loadA rows = .ok txns →
      posAmounts txns = (rows.filterMap (·.amount)).filter (fun a => 0 < a) := by
  have hd := to_datetime_ok (rows.map (·.date)) (by
    intro x hx
    obtain ⟨r, hr, rfl⟩ := List.mem_map.1 hx
    exact h r hr)
  constructor
  · unfold loadA
    rw [hd]
    rfl
  · intro txns htxns
    unfold loadA at htxns
    rw [hd] at htxns
    injection htxns with h'
    subst h'
    unfold posAmounts
    rw [List.filterMap_map]
    rfl

/-- Witness for the amended C3 theorem: one good row and one row with an
unparseable amount; both records are retained and only the good amount
enters the positive partition. -/
theorem loadA_amount_nulled_witness :
    loadA [{ date := some ⟨2024, 1, 5⟩, amount := some 20, description := "A",
             category := "x" },
           { date := some ⟨2024, 1, 6⟩, amount := none, description := "B",
             category := "x" }] =
      .ok [{ date := ⟨2024, 1, 5⟩, amount := some 20, description := "A",
             category := "x", source := "" },
           { date := ⟨2024, 1, 6⟩, amount := none, description := "B",
             category := "x", source := "" }] ∧
    ∀ txns,
      loadA [{ date := some ⟨2024, 1, 5⟩, amount := some 20, description := "A",
               category := "x" },
             { date := some ⟨2024, 1, 6⟩, amount := none, description := "B",
               category := "x" }] = .ok txns →
      posAmounts txns = [20] :=
  loadA_amount_nulled _ (by decide)

/-! ### C4 — fatality condition of the dashboard loader -/

/-- C4 counterexample: the claim says the loader is fatal exactly when zero
usable records remain.  A single recognized Schema-B source whose only row
is credit-only yields zero canonical records, yet the load succeeds with an
empty frame: the `ValueError` only fires when every source was skipped as
unrecognized. -/
theorem load_transactions_empty_ok :
    load_transactions [.schemaB [{ date := some ⟨2024, 1, 5⟩, debit := some 0,
                                   credit := some 50, description := "PAYMENT",
                                   category := "x" }]] = .ok [] := by
  unfold load_transactions
  rw [show collectDfs [.schemaB [{ date := some ⟨2024, 1, 5⟩, debit := some 0,
                                   credit := some 50, description := "PAYMENT",
                                   category := "x" }]] =
        Except.ok [([] : List Txn)] from rfl]
  show Except.ok (drop_duplicates []) = Except.ok []
  rw [drop_duplicates]

/-- C4 amended: the loader raises its fatal no-valid-data error if and only
if every source matches neither recognized schema (in particular when there
are no sources at all); any recognized source suppresses it, even one
contributing zero records.  Unrecognized sources alone are otherwise
skipped without aborting. -/
theorem load_transactions_fatal_iff (srcs : List RawSource) :
    load_transactions srcs = .error .noValidCsv ↔
      srcs.all RawSource.isUnknown := by
  induction srcs with
  | nil =>
    simp [show load_transactions ([] : List RawSource) =
            Except.error LoadErr.noValidCsv from rfl]
  | cons s rest ih =>
    cases s with
    | unknown =>
      have heq : load_transactions (RawSource.unknown :: rest) =
          load_transactions rest := rfl
      rw [heq, ih]
      simp [RawSource.isUnknown]
    | schemaA rows =>
      have hall : ((RawSource.schemaA rows :: rest).all RawSource.isUnknown) = false := by
        simp [RawSource.isUnknown]
      rw [hall]
      simp only [Bool.false_eq_true, iff_false]
      intro hcontra
      unfold load_transactions at hcontra
      rw [show collectDfs (.schemaA rows :: rest) = do
            let df ← loadA rows
            let dfs ← collectDfs rest
            Except.ok (df :: dfs) from rfl] at hcontra
      cases hr : loadA rows with
      | error e =>
        rw [hr] at hcontra
        injection hcontra with h'
        exact absurd (h' ▸ loadA_error _ _ hr) (by simp)
      | ok df =>
        rw [hr] at hcontra
        cases hc : collectDfs rest with
        | error e =>
          rw [hc] at hcontra
          injection hcontra with h'
          exact absurd (h' ▸ collectDfs_error _ _ hc) (by simp)
        | ok dfs =>
          rw [hc] at hcontra
          exact Except.noConfusion hcontra
    | schemaB rows =>
      have hall : ((RawSource.schemaB rows :: rest).all RawSource.isUnknown) = false := by
        simp [RawSource.isUnknown]
      rw [hall]
      simp only [Bool.false_eq_true, iff_false]
      intro hcontra
      unfold load_transactions at hcontra
      rw [show collectDfs (.schemaB rows :: rest) = do
            let df ← loadB rows
            let dfs ← collectDfs rest
            Except.ok (df :: dfs) from rfl] at hcontra
      cases hr : loadB rows with
      | error e =>
        rw [hr] at hcontra
        injection hcontra with h'
        exact absurd (h' ▸ loadB_error _ _ hr) (by simp)
      | ok df =>
        rw [hr] at hcontra
        cases hc : collectDfs rest with
        | error e =>
          rw [hc] at hcontra
          injection hcontra with h'
          exact absurd (h' ▸ collectDfs_error _ _ hc) (by simp)
        | ok dfs =>
          rw [hc] at hcontra
          exact Except.noConfusion hcontra

/-! ### C8 — Schema B keeps only debit rows -/

/-- C8: for Schema-B sources (dates parseable), a row becomes a canonical
transaction exactly when its (coerced, zero-filled) `Debit` is positive,
with `Amount` set to the debit value; every produced record has a positive
amount, so credit-only rows can never surface as negative-amount refunds;
and the concrete `Debit = 0, Credit = 50.00` row produces zero records. -/
theorem loadB_debit_only (rows : List RawB) (h : ∀ r ∈ rows, r.date.isSome) :
    loadB rows = .ok ((rows.filter fun r => 0 < r.debit.getD 0).map fun r =>
      { date := r.date.getD ⟨0, 0, 0⟩
        amount := some (r.debit.getD 0)
        description := r.description
        category := r.category
        source := "" }) ∧
    (∀ txns, loadB rows = .ok txns → ∀ t ∈ txns, ∃ a, t.amount = some a ∧ 0 < a) ∧
    loadB [{ date := some ⟨2024, 1, 5⟩, debit := some 0, credit := some 50,
             description := "PAYMENT", category := "Payments" }] = .ok [] := by
  have hd := to_datetime_ok (rows.map (·.date)) (by
    intro x hx
    obtain ⟨r, hr, rfl⟩ := List.mem_map.1 hx
    exact h r hr)
  refine ⟨?_, ?_, rfl⟩
  · unfold loadB
    rw [hd]
    rfl
  · intro txns htxns t ht
    unfold loadB at htxns
    rw [hd] at htxns
    injection htxns with h'
    subst h'
    obtain ⟨r, hr, rfl⟩ := List.mem_map.1 ht
    refine ⟨r.debit.getD 0, rfl, ?_⟩
    have := List.of_mem_filter hr
    exact of_decide_eq_true this

/-- Witness for C8: one debit row and one credit-only row; only the debit
row survives, as a positive-amount record. -/
theorem loadB_debit_only_witness :
    loadB [{ date := some ⟨2024, 3, 1⟩, debit := some 30, credit := some 0,
             description := "STORE", category := "Shopping" },
           { date := some ⟨2024, 3, 2⟩, debit := some 0, credit := some 75,
             description := "PAYMENT THANK YOU", category := "Payments" }] =
      .ok [{ date := ⟨2024, 3, 1⟩, amount := some 30, description := "STORE",
             category := "Shopping", source := "" }] ∧
    (∀ txns,
      loadB [{ date := some ⟨2024, 3, 1⟩, debit := some 30, credit := some 0,
               description := "STORE", category := "Shopping" },
             { date := some ⟨2024, 3, 2⟩, debit := some 0, credit := some 75,
               description := "PAYMENT THANK YOU", category := "Payments" }] =
          .ok txns → ∀ t ∈ txns, ∃ a, t.amount = some a ∧ 0 < a) ∧
    loadB [{ date := some ⟨2024, 1, 5⟩, debit := some 0, credit := some 50,
             description := "PAYMENT", category := "Payments" }] = .ok [] :=
  loadB_debit_only _ (by decide)

/-! ### C2 — duplicate elimination -/

theorem drop_duplicates_filter_key (l : List Txn) (k : Date × Option ℚ × String) :
    (drop_duplicates l).filter (fun t => decide (dupKey t = k)) =
      (l.filter fun t => decide (dupKey t = k)).take 1 := by
  induction l using drop_duplicates.induct with
  | case1 => rw [drop_duplicates]; rfl
  | case2 t rest ih =>
    rw [drop_duplicates]
    by_cases hk : dupKey t = k
    · rw [List.filter_cons_of_pos (by simpa using hk),
        List.filter_cons_of_pos (by simpa using hk), List.take_succ_cons,
        List.take_zero, ih, List.filter_filter]
      have : (rest.filter fun a =>
          decide (dupKey a = k) && decide ¬dupKey a = dupKey t) = [] := by
        apply List.filter_eq_nil_iff.2
        intro u _
        by_cases hu : dupKey u = k
        · simp [hu]
          exact hk.symm
        · simp [hu]
      rw [this]
      rfl
    · rw [List.filter_cons_of_neg (by simpa using hk),
        List.filter_cons_of_neg (by simpa using hk), ih, List.filter_filter]
      congr 1
      apply List.filter_congr
      intro u _
      by_cases hu : dupKey u = k
      · have : ¬ dupKey u = dupKey t := fun h => hk (h ▸ hu)
        simp [hu, this]
        exact fun h => hk h.symm
      · simp [hu]

/-- C2 amended: the dashboard loader's canonical output is the
concatenation of the processed frames with `(date, amount, description)`
duplicates collapsed, and for every key the output keeps exactly the first
matching record of the concatenated input (one record when the key occurs,
none otherwise).  The claim's "every loader" generalization fails: the
`analysis.py` loader performs no deduplication (see the counterexample). -/
theorem load_transactions_dedup (srcs : List RawSource) (dfs : List (List Txn))
    (h : collectDfs srcs = .ok dfs) (hne : dfs ≠ [])
    (k : Date × Option ℚ × String) :
    load_transactions srcs = .ok (drop_duplicates dfs.flatten) ∧
    (drop_duplicates dfs.flatten).filter (fun t => decide (dupKey t = k)) =
      (dfs.flatten.filter fun t => decide (dupKey t = k)).take 1 := by
  refine ⟨?_, drop_duplicates_filter_key _ _⟩
  unfold load_transactions
  rw [h]
  have : dfs.isEmpty = false := by
    cases dfs with
    | nil => exact absurd rfl hne
    | cons a l => rfl
  show (if dfs.isEmpty then Except.error LoadErr.noValidCsv
        else Except.ok (drop_duplicates dfs.flatten)) = _
  rw [this]
  rfl

/-- Witness for the amended C2 theorem: a single Schema-A source holding
the same row twice; the canonical output keeps exactly the first copy. -/
theorem load_transactions_dedup_witness :
    load_transactions [.schemaA
        [{ date := some ⟨2024, 1, 5⟩, amount := some 10, description := "COFFEE",
           category := "Dining" },
         { date := some ⟨2024, 1, 5⟩, amount := some 10, description := "COFFEE",
           category := "Dining" }]] =
      .ok (drop_duplicates
        [{ date := ⟨2024, 1, 5⟩, amount := some 10, description := "COFFEE",
           category := "Dining", source := "" },
         { date := ⟨2024, 1, 5⟩, amount := some 10, description := "COFFEE",
           category := "Dining", source := "" }]) ∧
    (drop_duplicates
        [{ date := ⟨2024, 1, 5⟩, amount := some 10, description := "COFFEE",
           category := "Dining", source := "" },
         { date := ⟨2024, 1, 5⟩, amount := some 10, description := "COFFEE",
           category := "Dining", source := "" }]).filter
        (fun t => decide (dupKey t = (⟨2024, 1, 5⟩, some 10, "COFFEE"))) =
      ([{ date := ⟨2024, 1, 5⟩, amount := some 10, description := "COFFEE",
          category := "Dining", source := "" },
        { date := ⟨2024, 1, 5⟩, amount := some 10, description := "COFFEE",
          category := "Dining", source := "" }].filter
        (fun t => decide (dupKey t = (⟨2024, 1, 5⟩, some 10, "COFFEE")))).take 1 :=
  load_transactions_dedup
    [.schemaA
      [{ date := some ⟨2024, 1, 5⟩, amount := some 10, description := "COFFEE",
         category := "Dining" },
       { date := some ⟨2024, 1, 5⟩, amount := some 10, description := "COFFEE",
         category := "Dining" }]]
    [[{ date := ⟨2024, 1, 5⟩, amount := some 10, description := "COFFEE",
        category := "Dining", source := "" },
      { date := ⟨2024, 1, 5⟩, amount := some 10, description := "COFFEE",
        category := "Dining", source := "" }]]
    rfl (by simp) _

/-- C2 counterexample: the claim quantifies over "every loader that
produces the canonical transaction sequence", but `analysis.load_transactions`
only concatenates its per-file frames.  Two files each containing the same
`(date, amount, description)` row load to two records with that key, not
one. -/
theorem analysis_load_keeps_duplicates :
    (analysis_load_transactions
        [("jan", [{ date := some ⟨2024, 1, 5⟩, amount := some 10,
                    description := "COFFEE", category := "Dining" }]),
         ("feb", [{ date := some ⟨2024, 1, 5⟩, amount := some 10,
                    description := "COFFEE", category := "Dining" }])]).map
        (fun l => (l.filter fun t =>
          decide (dupKey t = (⟨2024, 1, 5⟩, some 10, "COFFEE"))).length) =
      .ok 2 := rfl

/-! ### C6 — subscription match predicate and tolerance boundary -/

/-- C6: a transaction is a candidate match exactly when its amount is
positive, its description case-insensitively contains one of the patterns,
and its amount is within `tolerance` of `expected_amount`; at the boundary,
`amount = expected + tolerance` matches while
`amount = expected + tolerance + 0.01` does not. -/
theorem txnMatches_tolerance (sub : SubDef) (t : DTxn)
    (hpat : (sub.patterns.any fun p =>
      strIncludes (jsToUpper t.description) (jsToUpper p)) = true)
    (htol : 0 ≤ sub.tolerance) (hpos : 0 < sub.amount + sub.tolerance) :
    txnMatches sub { t with amount := sub.amount + sub.tolerance } = true ∧
    txnMatches sub { t with amount := sub.amount + sub.tolerance + 1/100 } = false ∧
    ∀ u : DTxn, txnMatches sub u = true ↔
      (0 < u.amount ∧
        (sub.patterns.any fun p =>
          strIncludes (jsToUpper u.description) (jsToUpper p)) = true ∧
        |u.amount - sub.amount| ≤ sub.tolerance) := by
  refine ⟨?_, ?_, ?_⟩
  · unfold txnMatches
    rw [if_neg (by simpa using not_le.2 hpos)]
    simp only [hpat, Bool.not_true, Bool.false_eq_true, if_false]
    have : sub.amount + sub.tolerance - sub.amount = sub.tolerance := by ring
    rw [this, abs_of_nonneg htol]
    exact decide_eq_true le_rfl
  · unfold txnMatches
    by_cases h0 : sub.amount + sub.tolerance + 1/100 ≤ 0
    · rw [if_pos (by simpa using h0)]
    · rw [if_neg (by simpa using h0)]
      simp only [hpat, Bool.not_true, Bool.false_eq_true, if_false]
      apply decide_eq_false
      intro habs
      have harith : sub.amount + sub.tolerance + 1/100 - sub.amount =
          sub.tolerance + 1/100 := by ring
      rw [harith] at habs
      have : sub.tolerance + 1/100 ≤ |sub.tolerance + 1/100| := le_abs_self _
      linarith
  · intro u
    unfold txnMatches
    by_cases hu0 : u.amount ≤ 0
    · rw [if_pos hu0]
      simp only [Bool.false_eq_true, false_iff]
      rintro ⟨h1, -, -⟩
      exact absurd hu0 (not_le.2 h1)
    · rw [if_neg hu0]
      by_cases hup : (sub.patterns.any fun p =>
          strIncludes (jsToUpper u.description) (jsToUpper p)) = true
      · simp only [hup, Bool.not_true, Bool.false_eq_true, if_false,
          decide_eq_true_eq]
        exact ⟨fun h => ⟨not_le.1 hu0, by simp [hup], h⟩, fun ⟨_, _, h⟩ => h⟩
      · simp only [Bool.not_eq_true] at hup
        simp only [hup, Bool.not_false, if_true, Bool.false_eq_true, false_iff]
        rintro ⟨-, h2, -⟩
        exact h2

/-- Witness for C6 at a concrete subscription and transaction. -/
theorem txnMatches_tolerance_witness :
    txnMatches { name := "Audible", patterns := ["AUDIBLE"], category := "M",
                 amount := 1495/100, cycle := .monthly, tolerance := 2,
                 note := none }
        { date := ⟨2024, 4, 2⟩, amount := 1495/100 + 2, description := "Audible US",
          category := "M" } = true ∧
    txnMatches { name := "Audible", patterns := ["AUDIBLE"], category := "M",
                 amount := 1495/100, cycle := .monthly, tolerance := 2,
                 note := none }
        { date := ⟨2024, 4, 2⟩, amount := 1495/100 + 2 + 1/100,
          description := "Audible US", category := "M" } = false ∧
    ∀ u : DTxn,
      txnMatches { name := "Audible", patterns := ["AUDIBLE"], category := "M",
                   amount := 1495/100, cycle := .monthly, tolerance := 2,
                   note := none } u = true ↔
        (0 < u.amount ∧
          ((["AUDIBLE"] : List String).any fun p =>
            strIncludes (jsToUpper u.description) (jsToUpper p)) = true ∧
          |u.amount - 1495/100| ≤ 2) :=
  txnMatches_tolerance _
    { date := ⟨2024, 4, 2⟩, amount := 0, description := "Audible US",
      category := "M" }
    (by decide) (by norm_num) (by norm_num)

/-! ### C7 — status assignment and the §8.7 scenario -/

unseal Rat.add Rat.sub Rat.mul Rat.inv in
/-- C7: per definition, the reconciler assigns `not-found` on zero matches,
`active` for a monthly cycle with at least 6 matches, `irregular` for a
monthly cycle with a nonzero match count below 6, and `inactive` whenever
`expected_amount` is 0 regardless of matching; in the Netflix scenario
exactly one transaction matches and the status is `irregular`. -/
theorem subResult_status (allT0 allT6 allTi allTz : List DTxn)
    (s0 s6 si sz : SubDef)
    (h0a : s0.amount ≠ 0) (h0m : matchesOf allT0 s0 = [])
    (h6a : s6.amount ≠ 0) (_h6c : s6.cycle = .monthly)
    (h6n : 6 ≤ (matchesOf allT6 s6).length)
    (hia : si.amount ≠ 0) (hic : si.cycle = .monthly)
    (hin : (matchesOf allTi si).length ≠ 0)
    (hi6 : (matchesOf allTi si).length < 6)
    (hza : sz.amount = 0) :
    (subResult allT0 s0).status = .notFound ∧
    (subResult allT6 s6).status = .active ∧
    (subResult allTi si).status = .irregular ∧
    (subResult allTz sz).status = .inactive ∧
    (subResult netflixTxns netflixSub).count = 1 ∧
    (subResult netflixTxns netflixSub).status = .irregular := by
  refine ⟨?_, ?_, ?_, ?_, by decide, by decide⟩
  · simp [subResult, h0a, h0m]
  · have hne : ¬ (matchesOf allT6 s6).length = 0 := by omega
    have hlt : ¬ (s6.cycle = .monthly ∧ (matchesOf allT6 s6).length < 6) := by
      rintro ⟨-, h⟩
      omega
    simp [subResult, h6a, hne, hlt]
  · simp [subResult, hia, hin, hic, hi6]
  · simp [subResult, hza]

unseal Rat.add Rat.sub Rat.mul Rat.inv in
/-- Witness for C7 at concrete catalogs and transaction sets: a definition
with no matching transactions, one with six monthly matches, the Netflix
definition with its single match, and a zero-amount catalog entry. -/
theorem subResult_status_witness :
    (subResult netflixTxns
        { name := "Hulu", patterns := ["HULU"], category := "S", amount := 10,
          cycle := .monthly, tolerance := 2, note := none }).status = .notFound ∧
    (subResult
        [{ date := ⟨2024, 1, 2⟩, amount := 10, description := "HULU", category := "S" },
         { date := ⟨2024, 2, 2⟩, amount := 10, description := "HULU", category := "S" },
         { date := ⟨2024, 3, 2⟩, amount := 10, description := "HULU", category := "S" },
         { date := ⟨2024, 4, 2⟩, amount := 10, description := "HULU", category := "S" },
         { date := ⟨2024, 5, 2⟩, amount := 10, description := "HULU", category := "S" },
         { date := ⟨2024, 6, 2⟩, amount := 10, description := "HULU", category := "S" }]
        { name := "Hulu", patterns := ["HULU"], category := "S", amount := 10,
          cycle := .monthly, tolerance := 2, note := none }).status = .active ∧
    (subResult netflixTxns netflixSub).status = .irregular ∧
    (subResult netflixTxns
        { name := "Gone", patterns := ["GONE"], category := "S", amount := 0,
          cycle := .monthly, tolerance := 1, note := none }).status = .inactive ∧
    (subResult netflixTxns netflixSub).count = 1 ∧
    (subResult netflixTxns netflixSub).status = .irregular :=
  subResult_status netflixTxns
    [{ date := ⟨2024, 1, 2⟩, amount := 10, description := "HULU", category := "S" },
     { date := ⟨2024, 2, 2⟩, amount := 10, description := "HULU", category := "S" },
     { date := ⟨2024, 3, 2⟩, amount := 10, description := "HULU", category := "S" },
     { date := ⟨2024, 4, 2⟩, amount := 10, description := "HULU", category := "S" },
     { date := ⟨2024, 5, 2⟩, amount := 10, description := "HULU", category := "S" },
     { date := ⟨2024, 6, 2⟩, amount := 10, description := "HULU", category := "S" }]
    netflixTxns netflixTxns
    { name := "Hulu", patterns := ["HULU"], category := "S", amount := 10,
      cycle := .monthly, tolerance := 2, note := none }
    { name := "Hulu", patterns := ["HULU"], category := "S", amount := 10,
      cycle := .monthly, tolerance := 2, note := none }
    netflixSub
    { name := "Gone", patterns := ["GONE"], category := "S", amount := 0,
      cycle := .monthly, tolerance := 1, note := none }
    (by norm_num) (by decide) (by norm_num) rfl (by decide) (by decide) rfl
    (by decide) (by decide) rfl

/-! ### C10 — matching is independent per definition -/

/-- C10: the reconciler evaluates each catalog definition independently
over the full transaction set: a transaction matching two definitions
appears in the matched transactions of both, and each definition's total is
the (rounded) sum over its own match list, which contains the shared
transaction — no exclusivity or cross-definition deduplication. -/
theorem subResult_no_cross_dedup (allT : List DTxn) (s1 s2 : SubDef) (t : DTxn)
    (h1 : t ∈ allT) (hm1 : txnMatches s1 t = true) (hm2 : txnMatches s2 t = true)
    (ha1 : s1.amount ≠ 0) (ha2 : s2.amount ≠ 0) :
    t ∈ (subResult allT s1).transactions ∧
    t ∈ (subResult allT s2).transactions ∧
    (subResult allT s1).total = jsRound2 ((matchesOf allT s1).map (·.amount)).sum ∧
    (subResult allT s2).total = jsRound2 ((matchesOf allT s2).map (·.amount)).sum ∧
    t ∈ matchesOf allT s1 ∧ t ∈ matchesOf allT s2 := by
  have hmem1 : t ∈ matchesOf allT s1 := List.mem_filter.2 ⟨h1, hm1⟩
  have hmem2 : t ∈ matchesOf allT s2 := List.mem_filter.2 ⟨h1, hm2⟩
  refine ⟨?_, ?_, ?_, ?_, hmem1, hmem2⟩
  · simp only [subResult, ha1, if_false, if_neg ha1]
    exact (List.mem_insertionSort _).2 hmem1
  · simp only [subResult, ha2, if_false, if_neg ha2]
    exact (List.mem_insertionSort _).2 hmem2
  · simp [subResult, ha1, matchesOf]
  · simp [subResult, ha2, matchesOf]

/-! ### C5 — recurring-charge boundary -/

unseal Rat.add Rat.sub Rat.mul Rat.inv in
/-- C5 counterexample: the claim says a merchant in exactly
`threshold_months = 2` distinct months with per-month standard deviation 0
is always flagged.  A merchant with two equal, negative monthly sums
(a recurring refund) has std 0 yet is not flagged: the filter demands
`0 (= std) < mean * 0.2`, which fails for non-positive means. -/
theorem find_recurring_zero_std_not_flagged :
    (merchantMonths
        [{ date := ⟨2024, 1, 5⟩, amount := some (-10), description := "GYM",
           category := "Fitness", source := "" },
         { date := ⟨2024, 2, 5⟩, amount := some (-10), description := "GYM",
           category := "Fitness", source := "" }] "GYM").length = 2 ∧
    monthlySums
        [{ date := ⟨2024, 1, 5⟩, amount := some (-10), description := "GYM",
           category := "Fitness", source := "" },
         { date := ⟨2024, 2, 5⟩, amount := some (-10), description := "GYM",
           category := "Fitness", source := "" }] "GYM" = [-10, -10] ∧
    sampleVar (monthlySums
        [{ date := ⟨2024, 1, 5⟩, amount := some (-10), description := "GYM",
           category := "Fitness", source := "" },
         { date := ⟨2024, 2, 5⟩, amount := some (-10), description := "GYM",
           category := "Fitness", source := "" }] "GYM") = 0 ∧
    "GYM" ∉ find_recurring_charges
        [{ date := ⟨2024, 1, 5⟩, amount := some (-10), description := "GYM",
           category := "Fitness", source := "" },
         { date := ⟨2024, 2, 5⟩, amount := some (-10), description := "GYM",
           category := "Fitness", source := "" }] 2 := by
  decide

theorem sampleVar_pair (a : ℚ) : sampleVar [a, a] = 0 := by
  simp [sampleVar]

/-- C5 amended: with the default threshold 2, a merchant present in exactly
one distinct month is never flagged recurring, and a merchant present in
exactly two distinct months whose two monthly sums are equal and positive
(std 0, positive mean) is always flagged; zero std alone does not suffice
when the mean is not positive (see the counterexample). -/
theorem find_recurring_boundary (df₁ df₂ : List Txn) (d₁ d₂ : String) (a : ℚ)
    (h1 : (merchantMonths df₁ d₁).length = 1)
    (h2 : monthlySums df₂ d₂ = [a, a]) (ha : 0 < a) :
    d₁ ∉ find_recurring_charges df₁ 2 ∧
    d₂ ∈ find_recurring_charges df₂ 2 := by
  constructor
  · intro hmem
    have hmem2 := (List.mem_insertionSort _).1 hmem
    have hq := List.of_mem_filter hmem2
    have hlen : (monthlySums df₁ d₁).length = 1 := by
      unfold monthlySums
      rw [List.length_map]
      exact h1
    simp only [recurringQual, Bool.and_eq_true, decide_eq_true_eq] at hq
    omega
  · have hq : recurringQual df₂ 2 d₁ = true → True := fun _ => trivial
    have hqual : recurringQual df₂ 2 d₂ = true := by
      simp only [recurringQual, h2, Bool.and_eq_true, decide_eq_true_eq]
      refine ⟨by simp, ?_⟩
      unfold stdLtQ
      rw [if_neg (by simp)]
      apply decide_eq_true
      have hc : ([a, a] : List ℚ).sum / (([a, a] : List ℚ).length : ℚ) * (1/5) =
          a / 5 := by
        simp
        ring
      rw [hc, sampleVar_pair]
      constructor
      · positivity
      · positivity
    have hocc : ∃ t ∈ df₂, t.description = d₂ := by
      have hne : monthlySums df₂ d₂ ≠ [] := by rw [h2]; simp
      have hmm : merchantMonths df₂ d₂ ≠ [] := by
        intro hcontra
        apply hne
        unfold monthlySums
        rw [hcontra]
        rfl
      unfold merchantMonths at hmm
      rw [Ne, List.dedup_eq_nil, List.map_eq_nil_iff] at hmm
      obtain ⟨t, ht⟩ := List.exists_mem_of_ne_nil _ hmm
      refine ⟨t, List.mem_of_mem_filter ht, ?_⟩
      have := List.of_mem_filter ht
      exact eq_of_beq this
    obtain ⟨t, htmem, htd⟩ := hocc
    apply (List.mem_insertionSort _).2
    apply List.mem_filter.2
    refine ⟨?_, hqual⟩
    apply List.mem_dedup.2
    exact List.mem_map.2 ⟨t, htmem, htd⟩

unseal Rat.add Rat.sub Rat.mul Rat.inv in
/-- Witness for the amended C5 theorem: a one-month merchant is not
flagged, a two-month merchant with equal positive sums is. -/
theorem find_recurring_boundary_witness :
    "GYM" ∉ find_recurring_charges
      [{ date := ⟨2024, 1, 5⟩, amount := some 50, description := "GYM",
         category := "Fitness", source := "" }] 2 ∧
    "NETFLIX.COM" ∈ find_recurring_charges
      [{ date := ⟨2024, 1, 5⟩, amount := some 10, description := "NETFLIX.COM",
         category := "E", source := "" },
       { date := ⟨2024, 2, 5⟩, amount := some 10, description := "NETFLIX.COM",
         category := "E", source := "" }] 2 :=
  find_recurring_boundary _ _ "GYM" "NETFLIX.COM" 10 (by decide) (by decide)
    (by norm_num)

/-! ### C9 — category percent sum -/

theorem rhe_close (x : ℚ) : |(rhe x : ℚ) - x| ≤ 1/2 := by
  unfold rhe
  have hfl : (⌊x⌋ : ℚ) ≤ x := Int.floor_le x
  have hfu : x < (⌊x⌋ : ℚ) + 1 := Int.lt_floor_add_one x
  by_cases h1 : x - (⌊x⌋ : ℚ) < 1/2
  · rw [if_pos h1, abs_le]
    constructor <;> linarith
  · rw [if_neg h1]
    by_cases h2 : (1:ℚ)/2 < x - (⌊x⌋ : ℚ)
    · rw [if_pos h2, abs_le]
      push_cast
      constructor <;> linarith
    · rw [if_neg h2]
      have hx : x - (⌊x⌋ : ℚ) = 1/2 := by linarith
      by_cases h3 : ⌊x⌋ % 2 = 0
      · rw [if_pos h3, abs_le]
        constructor <;> linarith
      · rw [if_neg h3, abs_le]
        push_cast
        constructor <;> linarith

theorem round1_close (x : ℚ) : |round1 x - x| ≤ 1/20 := by
  unfold round1
  have h := rhe_close (x * 10)
  have : (rhe (x * 10) : ℚ) / 10 - x = ((rhe (x * 10) : ℚ) - x * 10) / 10 := by
    ring
  rw [this, abs_div]
  rw [show |(10:ℚ)| = 10 by norm_num]
  linarith [abs_nonneg ((rhe (x * 10) : ℚ) - x * 10)]

theorem round1_sum_close (l : List ℚ) :
    |(l.map round1).sum - l.sum| ≤ (l.length : ℚ) / 20 := by
  induction l with
  | nil => simp
  | cons x rest ih =>
    simp only [List.map_cons, List.sum_cons, List.length_cons]
    have h1 := round1_close x
    have : round1 x + (rest.map round1).sum - (x + rest.sum) =
        (round1 x - x) + ((rest.map round1).sum - rest.sum) := by ring
    rw [this]
    calc |(round1 x - x) + ((rest.map round1).sum - rest.sum)|
        ≤ |round1 x - x| + |(rest.map round1).sum - rest.sum| := abs_add _ _
      _ ≤ 1/20 + (rest.length : ℚ) / 20 := by linarith
      _ = ((rest.length : ℚ) + 1) / 20 := by ring
      _ = (((rest.length + 1 : ℕ)) : ℚ) / 20 := by push_cast; ring

theorem percent_sum_core (ts : List ℚ)
    (hpos : 0 < ((ts.filter fun t => decide (0 < t)).sum)) :
    |((ts.filter fun t => decide (0 < t)).map fun t =>
        round1 (t / (ts.filter fun t => decide (0 < t)).sum * 100)).sum - 100| ≤
      ((ts.filter fun t => decide (0 < t)).length : ℚ) / 20 := by
  set S : ℚ := (ts.filter fun t => decide (0 < t)).sum with hS
  set P : List ℚ := ts.filter fun t => decide (0 < t) with hP
  have hS0 : S ≠ 0 := ne_of_gt hpos
  have hcomp : (P.map fun t => round1 (t / S * 100)) =
      (P.map fun t => t / S * 100).map round1 := by
    rw [List.map_map]
    rfl
  have hsum : (P.map fun t => t / S * 100).sum = 100 := by
    have hrw : (P.map fun t => t / S * 100) = P.map fun t => t * (100 / S) := by
      apply List.map_congr_left
      intro t _
      ring
    rw [hrw]
    have hmr : (P.map fun t => t * (100 / S)).sum =
        (P.map id).sum * (100 / S) := List.sum_map_mul_right _ _ _
    rw [hmr, List.map_id, ← hS]
    field_simp
  have hlen : (P.map fun t => t / S * 100).length = P.length :=
    List.length_map _ _
  calc |(P.map fun t => round1 (t / S * 100)).sum - 100|
      = |((P.map fun t => t / S * 100).map round1).sum -
          (P.map fun t => t / S * 100).sum| := by rw [hcomp, hsum]
    _ ≤ ((P.map fun t => t / S * 100).length : ℚ) / 20 := round1_sum_close _
    _ = (P.length : ℚ) / 20 := by rw [hlen]

set_option maxHeartbeats 1000000 in
/-- C9 amended: for a breakdown whose positive-total categories have a
positive total sum, the percents of the positive-total categories add up to
100 within 0.05 per positive category (each percent is rounded to one
decimal place, contributing at most 0.05 of error).  The claimed fixed
tolerance of 0.1 holds only up to two positive categories and fails in
general (see the six-category counterexample summing to 100.2). -/
theorem category_percent_sum_bound (df : List Txn)
    (hpos : 0 < totalPositiveOf (catRowsOf (df.filter txnPos))) :
    |(((category_breakdown df).filter fun r =>
        decide (0 < r.total)).map (·.percent)).sum - 100| ≤
      ((((category_breakdown df).filter fun r =>
        decide (0 < r.total)).length : ℚ)) / 20 := by
  have hcb : category_breakdown df =
      List.insertionSort (fun a b => b.total ≤ a.total)
        (withPercents (catRowsOf (df.filter txnPos))) := rfl
  rw [hcb]
  generalize hg : catRowsOf (df.filter txnPos) = rows at hpos ⊢
  have hperm : (List.insertionSort (fun a b => b.total ≤ a.total)
      (withPercents rows)).Perm (withPercents rows) :=
    List.perm_insertionSort _ _
  have hpf := hperm.filter fun r => decide (0 < r.total)
  rw [(hpf.map (·.percent)).sum_eq, hpf.length_eq]
  have hcomm : ((withPercents rows).filter fun r => decide (0 < r.total)) =
      ((rows.filter fun r => decide (0 < r.total)).map fun r =>
        { r with percent := round1 (r.total / totalPositiveOf rows * 100) }) := by
    unfold withPercents
    rw [List.filter_map]
    rfl
  rw [hcomm, List.map_map, List.length_map]
  have hmm : ((rows.filter fun r => decide (0 < r.total)).map
      ((·.percent) ∘ fun r =>
        { r with percent := round1 (r.total / totalPositiveOf rows * 100) })) =
      (((rows.filter fun r => decide (0 < r.total)).map (·.total)).map
        fun t => round1 (t / totalPositiveOf rows * 100)) := by
    rw [List.map_map]
    rfl
  rw [hmm]
  have hpred : (fun r : CatRow => decide (0 < r.total)) =
      ((fun t : ℚ => decide (0 < t)) ∘ fun r : CatRow => r.total) := rfl
  have hft : ((rows.filter fun r => decide (0 < r.total)).map (·.total)) =
      ((rows.map (·.total)).filter fun t => decide (0 < t)) := by
    rw [hpred]
    exact (List.filter_map _ _).symm
  have hlf : (rows.filter fun r => decide (0 < r.total)).length =
      ((rows.map (·.total)).filter fun t => decide (0 < t)).length := by
    rw [← hft, List.length_map]
  rw [hft, hlf]
  have hpos2 : 0 < ((rows.map (·.total)).filter fun t => decide (0 < t)).sum :=
    hpos
  have hTP : totalPositiveOf rows =
      ((rows.map (·.total)).filter fun t => decide (0 < t)).sum := rfl
  rw [hTP]
  have hres := percent_sum_core (rows.map fun x => x.total) hpos2
  exact hres

unseal Rat.add Rat.sub Rat.mul Rat.inv in
/-- C9 counterexample: six categories with equal positive totals give six
percents of `round1(100/6) = 16.7`, summing to `100.2`, which misses 100 by
0.2 — outside the claimed fixed tolerance of 0.1. -/
theorem category_percent_sum_counterexample :
    (((category_breakdown
        [{ date := ⟨2024, 1, 1⟩, amount := some 1, description := "m1",
           category := "c1", source := "" },
         { date := ⟨2024, 1, 2⟩, amount := some 1, description := "m2",
           category := "c2", source := "" },
         { date := ⟨2024, 1, 3⟩, amount := some 1, description := "m3",
           category := "c3", source := "" },
         { date := ⟨2024, 1, 4⟩, amount := some 1, description := "m4",
           category := "c4", source := "" },
         { date := ⟨2024, 1, 5⟩, amount := some 1, description := "m5",
           category := "c5", source := "" },
         { date := ⟨2024, 1, 6⟩, amount := some 1, description := "m6",
           category := "c6", source := "" }]).filter fun r =>
        decide (0 < r.total)).map (·.percent)).sum = 501/5 ∧
    ¬ |(501/5 : ℚ) - 100| ≤ 1/10 := by
  constructor
  · decide
  · decide

unseal Rat.add Rat.sub Rat.mul Rat.inv in
/-- Witness for the amended C9 theorem at a concrete two-category set. -/
theorem category_percent_sum_bound_witness :
    0 < totalPositiveOf (catRowsOf
      (([{ date := ⟨2024, 1, 1⟩, amount := some 30, description := "m1",
           category := "Dining", source := "" },
         { date := ⟨2024, 1, 2⟩, amount := some 10, description := "m2",
           category := "Pets", source := "" }] : List Txn).filter txnPos)) ∧
    |(((category_breakdown
        [{ date := ⟨2024, 1, 1⟩, amount := some 30, description := "m1",
           category := "Dining", source := "" },
         { date := ⟨2024, 1, 2⟩, amount := some 10, description := "m2",
           category := "Pets", source := "" }]).filter fun r =>
        decide (0 < r.total)).map (·.percent)).sum - 100| ≤
      ((((category_breakdown
        [{ date := ⟨2024, 1, 1⟩, amount := some 30, description := "m1",
           category := "Dining", source := "" },
         { date := ⟨2024, 1, 2⟩, amount := some 10, description := "m2",
           category := "Pets", source := "" }]).filter fun r =>
        decide (0 < r.total)).length : ℚ)) / 20 :=
  ⟨by decide, category_percent_sum_bound _ (by decide)⟩

unseal Rat.add Rat.sub Rat.mul Rat.inv in
/-- Witness for C10: one transaction matching two different catalog
definitions lands in both match lists and both totals. -/
theorem subResult_no_cross_dedup_witness :
    { date := ⟨2024, 5, 1⟩, amount := 20, description := "NETFLIX PREMIUM",
      category := "S" } ∈
      (subResult
        [{ date := ⟨2024, 5, 1⟩, amount := 20, description := "NETFLIX PREMIUM",
           category := "S" }]
        { name := "Netflix", patterns := ["NETFLIX"], category := "S",
          amount := 20, cycle := .monthly, tolerance := 2,
          note := none }).transactions ∧
    { date := ⟨2024, 5, 1⟩, amount := 20, description := "NETFLIX PREMIUM",
      category := "S" } ∈
      (subResult
        [{ date := ⟨2024, 5, 1⟩, amount := 20, description := "NETFLIX PREMIUM",
           category := "S" }]
        { name := "Premium TV", patterns := ["PREMIUM"], category := "S",
          amount := 19, cycle := .monthly, tolerance := 2,
          note := none }).transactions ∧
    (subResult
        [{ date := ⟨2024, 5, 1⟩, amount := 20, description := "NETFLIX PREMIUM",
           category := "S" }]
        { name := "Netflix", patterns := ["NETFLIX"], category := "S",
          amount := 20, cycle := .monthly, tolerance := 2,
          note := none }).total =
      jsRound2 ((matchesOf
        [{ date := ⟨2024, 5, 1⟩, amount := 20, description := "NETFLIX PREMIUM",
           category := "S" }]
        { name := "Netflix", patterns := ["NETFLIX"], category := "S",
          amount := 20, cycle := .monthly, tolerance := 2,
          note := none }).map (·.amount)).sum ∧
    (subResult
        [{ date := ⟨2024, 5, 1⟩, amount := 20, description := "NETFLIX PREMIUM",
           category := "S" }]
        { name := "Premium TV", patterns := ["PREMIUM"], category := "S",
          amount := 19, cycle := .monthly, tolerance := 2,
          note := none }).total =
      jsRound2 ((matchesOf
        [{ date := ⟨2024, 5, 1⟩, amount := 20, description := "NETFLIX PREMIUM",
           category := "S" }]
        { name := "Premium TV", patterns := ["PREMIUM"], category := "S",
          amount := 19, cycle := .monthly, tolerance := 2,
          note := none }).map (·.amount)).sum ∧
    { date := ⟨2024, 5, 1⟩, amount := 20, description := "NETFLIX PREMIUM",
      category := "S" } ∈
      matchesOf
        [{ date := ⟨2024, 5, 1⟩, amount := 20, description := "NETFLIX PREMIUM",
           category := "S" }]
        { name := "Netflix", patterns := ["NETFLIX"], category := "S",
          amount := 20, cycle := .monthly, tolerance := 2, note := none } ∧
    { date := ⟨2024, 5, 1⟩, amount := 20, description := "NETFLIX PREMIUM",
      category := "S" } ∈
      matchesOf
        [{ date := ⟨2024, 5, 1⟩, amount := 20, description := "NETFLIX PREMIUM",
           category := "S" }]
        { name := "Premium TV", patterns := ["PREMIUM"], category := "S",
          amount := 19, cycle := .monthly, tolerance := 2, note := none } :=
  subResult_no_cross_dedup _ _ _ _ (by simp) (by decide) (by decide)
    (by norm_num) (by norm_num)
